import Mathlib

/-!
# Verification of log4go's DailyFileLogWriter (src/dailyfilelog.go)

Shallow embedding of the daily rotating file log writer.  File-system
operations (`os.Lstat`, `os.Rename`, the `gzip` subprocess, `os.OpenFile`,
`fmt.Fprint` to the open handle, `os.Stderr` reporting) are modelled as an
event trace; their success or failure is supplied by an environment value
(`FSEnv` per rotation, a per-step write-error field for record writes).
`FormatLogRecord` is an external collaborator of this file (defined in the
wider log4go package); it is passed as an opaque parameter
`fr : String → LogRecord → String`.  Each call to `time.Now()` (with or
without `.UTC()`, which changes only the displayed location, not the
instant) performed while handling one message / one rotation is modelled as
the single instant supplied for that step.
-/

/-- Calendar timestamp, standing in for Go's `time.Time` (UTC instant). -/
structure Time where
  year : Nat
  month : Nat
  day : Nat
  hour : Nat
  minute : Nat
  second : Nat
deriving DecidableEq, Repr

/-- Go's `LogRecord` (external to dailyfilelog.go): immutable value with a
creation timestamp, severity level, source tag and message. -/
structure LogRecord where
  Created : Time
  Level : Nat
  Source : String
  Message : String
deriving DecidableEq, Repr

/-- `&LogRecord{Created: t}` — a record whose only set field is `Created`
(the other fields take Go zero values). -/
def mkRec (t : Time) : LogRecord :=
  { Created := t, Level := 0, Source := "", Message := "" }

/-- `fmt.Sprintf("%0*d", width, n)`: decimal digits of `n`, left-padded
with `0` to `width` characters (longer numbers keep all their digits). -/
def pad0 (width n : Nat) : String :=
  let s := toString n
  String.mk (List.replicate (width - s.length) '0') ++ s

/-- Observable side effects of the writer, in program order.
`writeFile c` is an invocation of `fmt.Fprint(w.file, c)`;
`stderrReport fn msg` is
`fmt.Fprintf(os.Stderr, "DailyFileLogWriter(%q): %s\n", fn, msg)`. -/
inductive Event where
  | writeFile (content : String)
  | closeFile
  | syncFile
  | rename (src : String) (dst : String)
  | gzip (path : String)
  | openFile (path : String)
  | stderrReport (filename : String) (msg : String)
deriving DecidableEq, Repr

/-- Is this event a `fmt.Fprint` to the writer's file handle? -/
def Event.isWrite : Event → Bool
  | Event.writeFile _ => true
  | _ => false

/-- Is this event an `os.OpenFile` of the log file? -/
def Event.isOpen : Event → Bool
  | Event.openFile _ => true
  | _ => false

/-- Is this event an `os.Rename` (the archiving rename)? -/
def Event.isRename : Event → Bool
  | Event.rename _ _ => true
  | _ => false

/-- Is this event a `gzip` subprocess invocation? -/
def Event.isGzip : Event → Bool
  | Event.gzip _ => true
  | _ => false

/-- File-system environment for one `intRotate` call.  `fileExists` is the
outcome of `os.Lstat(w.filename)` folded through the source's guard
`nil != fi || os.IsExist(err)` (true exactly when a file is present at the
path; `os.IsExist` is false on the not-exist error).  The three error
fields are `none` on success, or `some e` with the failing call's error
string. -/
structure FSEnv where
  fileExists : Bool
  renameErr : Option String
  gzipErr : Option String
  openErr : Option String
deriving DecidableEq, Repr

/-- The `DailyFileLogWriter` struct.  `fileOpen` models `w.file != nil`
(the pointer test used by the source; the source never resets the pointer,
so it stays true once a file has been opened).  `recClosed` records whether
`close(w.rec)` has been executed on the record channel. -/
structure DailyFileLogWriter where
  recClosed : Bool
  filename : String
  filedate : Time
  fileOpen : Bool
  format : String
  header : String
  trailer : String
  rotate_limit : Nat
deriving DecidableEq, Repr

/-- `fmt.Sprintf("%s.%04d-%02d-%02d", filename, d.Year(), d.Month(), d.Day())`:
the archive name built in `intRotate` from the opened-file date. -/
def archiveName (filename : String) (d : Time) : String :=
  filename ++ "." ++ pad0 4 d.year ++ "-" ++ pad0 2 d.month ++ "-" ++ pad0 2 d.day

/-- `intRotate` (src/dailyfilelog.go lines 114–153): close any open file
after appending the trailer, archive (rename + gzip) when a file exists at
`filename` and `rotate_limit > 0`, then reopen and write the header.
Returns the new state, the event trace of the call, and `none` on success
or `some e` on the error the Go function returns.  On every error return
the struct fields are untouched (the source mutates `filedate`/`file`
only after a successful open). -/
def intRotate (fr : String → LogRecord → String) (env : FSEnv) (now : Time)
    (w : DailyFileLogWriter) : DailyFileLogWriter × List Event × Option String :=
  -- lines 116–119: if w.file != nil { Fprint(trailer); w.file.Close() }
  let closeEvts : List Event :=
    if w.fileOpen then
      [Event.writeFile (fr w.trailer (mkRec now)), Event.closeFile]
    else []
  -- lines 143–151: open for append/create, set filedate, write header
  let openPart : List Event → DailyFileLogWriter × List Event × Option String := fun pre =>
    match env.openErr with
    | some e => (w, pre, some e)
    | none =>
      let w2 : DailyFileLogWriter := { w with filedate := now, fileOpen := true }
      (w2, pre ++ [Event.openFile w.filename,
                   Event.writeFile (fr w2.header (mkRec w2.filedate))], none)
  -- line 122: if (nil != fi || os.IsExist(err)) && w.rotate_limit > 0
  if env.fileExists && (w.rotate_limit != 0) then
    let fname := archiveName w.filename w.filedate
    match env.renameErr with
    | some e => (w, closeEvts, some ("Rotate: " ++ e ++ "\n"))
    | none =>
      match env.gzipErr with
      | some e => (w, closeEvts ++ [Event.rename w.filename fname], some e)
      | none => openPart (closeEvts ++ [Event.rename w.filename fname, Event.gzip fname])
  else
    openPart closeEvts

/-- Line 88's rotation check before a record write:
`time.Now().UTC().Day() != w.filedate.Day()` — it compares only the day of
the month. -/
def rotationCheck (w : DailyFileLogWriter) (now : Time) : Bool :=
  now.day != w.filedate.day

/-- The deferred function of the background goroutine (lines 70–75): if
`w.file != nil`, append the trailer rendered at the current time and close
the handle. -/
def shutdown (fr : String → LogRecord → String) (now : Time)
    (w : DailyFileLogWriter) : List Event :=
  if w.fileOpen then
    [Event.writeFile (fr w.trailer (mkRec now)), Event.closeFile]
  else []

/-- A message the background loop's `select` can receive: a value on the
`w.rot` channel, or a record from `w.rec`. -/
inductive Msg where
  | rotSignal
  | record (r : LogRecord)
deriving DecidableEq, Repr

/-- One loop iteration's inputs: the message, the instant `time.Now()`
yields while the message is handled, the file-system environment for a
rotation performed in this iteration, and the outcome of the
`fmt.Fprint(w.file, ...)` record write (`none` = success). -/
structure Step where
  msg : Msg
  now : Time
  env : FSEnv
  writeErr : Option String
deriving DecidableEq, Repr

/-- The background goroutine's `for { select { ... } }` loop
(lines 77–102), run over a finite list of incoming messages; an empty list
means `w.rec` was closed and drained, upon which the deferred `shutdown`
runs at instant `endTime`.  Error paths report on stderr and return,
which also triggers the deferred `shutdown` (at that step's instant). -/
def runLoop (fr : String → LogRecord → String) :
    List Step → Time → DailyFileLogWriter → DailyFileLogWriter × List Event
  | [], endTime, w => (w, shutdown fr endTime w)
  | s :: rest, endTime, w =>
    match s.msg with
    | Msg.rotSignal =>
      -- lines 79–83
      let res := intRotate fr s.env s.now w
      match res.2.2 with
      | some e =>
        (res.1, res.2.1 ++ [Event.stderrReport res.1.filename e]
          ++ shutdown fr s.now res.1)
      | none =>
        let next := runLoop fr rest endTime res.1
        (next.1, res.2.1 ++ next.2)
    | Msg.record r =>
      -- lines 88–100
      if rotationCheck w s.now then
        let res := intRotate fr s.env s.now w
        match res.2.2 with
        | some e =>
          (res.1, res.2.1 ++ [Event.stderrReport res.1.filename e]
            ++ shutdown fr s.now res.1)
        | none =>
          match s.writeErr with
          | some e =>
            (res.1, res.2.1 ++ [Event.stderrReport res.1.filename e]
              ++ shutdown fr s.now res.1)
          | none =>
            let next := runLoop fr rest endTime res.1
            (next.1, res.2.1 ++ [Event.writeFile (fr res.1.format r)] ++ next.2)
      else
        match s.writeErr with
        | some e =>
          (w, [Event.stderrReport w.filename e] ++ shutdown fr s.now w)
        | none =>
          let next := runLoop fr rest endTime w
          (next.1, [Event.writeFile (fr w.format r)] ++ next.2)

/-- `Close` (lines 38–41): `close(w.rec); w.file.Sync()`.  Go panics with
"close of closed channel" when the channel is already closed; a panic is
modelled as `Except.error`. -/
def Close (w : DailyFileLogWriter) :
    Except String (DailyFileLogWriter × List Event) :=
  if w.recClosed then
    Except.error "close of closed channel"
  else
    Except.ok ({ w with recClosed := true }, [Event.syncFile])

/-- The struct literal built at the top of `NewDailyFileLogWriter`
(lines 53–60): `header`/`trailer` take Go's zero value `""`. -/
def initialWriter (fname : String) (rotate_limit : Nat) (now : Time) :
    DailyFileLogWriter :=
  { recClosed := false, filename := fname, filedate := now, fileOpen := false,
    format := "[%D %T] [%L] (%S) %M", header := "", trailer := "",
    rotate_limit := rotate_limit }

/-- `NewDailyFileLogWriter` (lines 52–106) up to spawning the goroutine:
builds the struct, performs the first `intRotate`, and on its error calls
`panic(err)` — construction aborts without returning a writer, modelled as
`Except.error` (the `fmt.Fprintf`/`return nil` after the panic is
unreachable). -/
def NewDailyFileLogWriter (fr : String → LogRecord → String) (env : FSEnv)
    (now : Time) (fname : String) (rotate_limit : Nat) :
    Except String (DailyFileLogWriter × List Event) :=
  let res := intRotate fr env now (initialWriter fname rotate_limit now)
  match res.2.2 with
  | some e => Except.error e
  | none => Except.ok (res.1, res.2.1)

/-- `SetHeadFoot` (lines 165–171): store the new header and trailer, and
if `w.file != nil`, append the (new) header rendered at the current time. -/
def SetHeadFoot (fr : String → LogRecord → String) (now : Time)
    (head foot : String) (w : DailyFileLogWriter) :
    DailyFileLogWriter × List Event :=
  let w2 : DailyFileLogWriter := { w with header := head, trailer := foot }
  if w2.fileOpen then
    (w2, [Event.writeFile (fr w2.header (mkRec now))])
  else
    (w2, [])

/-- The scenario of claim C2: `Close` is invoked while `pending` records
sit in the buffered `w.rec` channel; the background loop then drains them
(a closed Go channel still delivers its buffered values before reporting
`ok = false`) and finally runs the deferred shutdown at `endTime`. -/
def closeThenDrain (fr : String → LogRecord → String) (pending : List Step)
    (endTime : Time) (w : DailyFileLogWriter) :
    Except String (DailyFileLogWriter × List Event) :=
  match Close w with
  | Except.error e => Except.error e
  | Except.ok (w1, closeEvts) =>
    let res := runLoop fr pending endTime w1
    Except.ok (res.1, closeEvts ++ res.2)

/-- The writes the drain loop performs for a list of record messages, in
order (used to state C2). -/
def drainWrites (fr : String → LogRecord → String) (format : String) :
    List Step → List Event
  | [] => []
  | s :: rest =>
    match s.msg with
    | Msg.record r => Event.writeFile (fr format r) :: drainWrites fr format rest
    | Msg.rotSignal => drainWrites fr format rest

/-- True when some `stderrReport` event is later followed by a
`writeFile` event (used for C7). -/
def writeAfterReport : List Event → Bool
  | [] => false
  | Event.stderrReport _ _ :: rest => rest.any Event.isWrite || writeAfterReport rest
  | _ :: rest => writeAfterReport rest

/-- Modelled from the spec (§4.2 Rotation Policy), for comparison with the
code's `rotationCheck`: "`shouldRotate(openedDate, now) -> bool` is true
iff the UTC calendar date of `now` differs from `openedDate`" — i.e. the
full year/month/day differs. -/
def shouldRotateSpec (openedDate now : Time) : Bool :=
  (now.year != openedDate.year) || (now.month != openedDate.month)
    || (now.day != openedDate.day)

/-- A concrete stand-in for the external `FormatLogRecord` collaborator,
used in closed counterexamples and witnesses: it tags the template with
the record's message. -/
def frTag (template : String) (r : LogRecord) : String :=
  template ++ ":" ++ r.Message

/-! ## Structure lemmas for `intRotate` -/

/-- On a fully successful environment, `intRotate` closes (if open),
archives (if the guard holds), reopens, writes the header, and updates
`filedate` to `now`. -/
theorem intRotate_success (fr : String → LogRecord → String) (env : FSEnv)
    (now : Time) (w : DailyFileLogWriter)
    (hren : env.renameErr = none) (hgz : env.gzipErr = none)
    (hop : env.openErr = none) :
    intRotate fr env now w =
      ({ w with filedate := now, fileOpen := true },
       (if w.fileOpen then
          [Event.writeFile (fr w.trailer (mkRec now)), Event.closeFile]
        else [])
        ++ (if env.fileExists && (w.rotate_limit != 0) then
              [Event.rename w.filename (archiveName w.filename w.filedate),
               Event.gzip (archiveName w.filename w.filedate)]
            else [])
        ++ [Event.openFile w.filename, Event.writeFile (fr w.header (mkRec now))],
       none) := by
  by_cases hg : env.fileExists && (w.rotate_limit != 0) <;>
    simp [intRotate, hren, hgz, hop, hg]

/-- When the archive guard holds and the rename fails, `intRotate` returns
the wrapped error with the state unchanged, having only closed the file. -/
theorem intRotate_rename_fail (fr : String → LogRecord → String) (env : FSEnv)
    (now : Time) (w : DailyFileLogWriter) (e : String)
    (hg : (env.fileExists && (w.rotate_limit != 0)) = true)
    (hren : env.renameErr = some e) :
    intRotate fr env now w =
      (w,
       (if w.fileOpen then
          [Event.writeFile (fr w.trailer (mkRec now)), Event.closeFile]
        else []),
       some ("Rotate: " ++ e ++ "\n")) := by
  simp [intRotate, hg, hren]

/-- When the archive guard holds, the rename succeeds and gzip fails,
`intRotate` returns gzip's error with the state unchanged. -/
theorem intRotate_gzip_fail (fr : String → LogRecord → String) (env : FSEnv)
    (now : Time) (w : DailyFileLogWriter) (e : String)
    (hg : (env.fileExists && (w.rotate_limit != 0)) = true)
    (hren : env.renameErr = none) (hgz : env.gzipErr = some e) :
    intRotate fr env now w =
      (w,
       (if w.fileOpen then
          [Event.writeFile (fr w.trailer (mkRec now)), Event.closeFile]
        else [])
        ++ [Event.rename w.filename (archiveName w.filename w.filedate)],
       some e) := by
  simp [intRotate, hg, hren, hgz]

/-! ## C1 — rotation decision before a record write -/

/-- An all-success file-system environment. -/
def envOK : FSEnv :=
  { fileExists := true, renameErr := none, gzipErr := none, openErr := none }

/-- Writer state for the C1 counterexample: file opened on 2024-01-15. -/
def c1Writer : DailyFileLogWriter :=
  { recClosed := false, filename := "app.log",
    filedate := ⟨2024, 1, 15, 8, 0, 0⟩, fileOpen := true,
    format := "[%D %T] [%L] (%S) %M", header := "HEAD", trailer := "FOOT",
    rotate_limit := 3 }

/-- "Now" for the C1 counterexample: 2024-02-15 — a different UTC calendar
date but the same day of the month. -/
def c1Now : Time := ⟨2024, 2, 15, 9, 0, 0⟩

/-- The C1 step: a record dequeued at `c1Now` with no I/O failures. -/
def c1Step : Step :=
  { msg := Msg.record (mkRec c1Now), now := c1Now, env := envOK,
    writeErr := none }

/-- C1 counterexample: on 2024-02-15, with the file opened 2024-01-15, the
UTC calendar date of "now" differs from `openedDate` (the spec's
`shouldRotate` is true), yet the loop performs no rotation before writing
the record — no file is opened during the step, because line 88 compares
only `Day()`.  This falsifies "rotates ... exactly when the full UTC
calendar date (year, month, and day) of the current time differs from
openedDate". -/
theorem C1_counterexample :
    shouldRotateSpec c1Writer.filedate c1Now = true ∧
    ((runLoop frTag [c1Step] c1Now c1Writer).2.any Event.isOpen) = false := by
  exact ⟨rfl, rfl⟩

/-- C1 amended: the writer rotates before writing a dequeued record
exactly when the UTC *day of the month* of "now" differs from
`openedDate`'s day of the month (not the full calendar date): with no I/O
failures in the step, the step's trace contains a file open (the rotation)
iff `now.day ≠ filedate.day`. -/
theorem C1_rotates_iff_day_of_month_differs
    (fr : String → LogRecord → String) (s : Step) (t0 : Time)
    (w : DailyFileLogWriter) (r : LogRecord)
    (hmsg : s.msg = Msg.record r)
    (hren : s.env.renameErr = none) (hgz : s.env.gzipErr = none)
    (hop : s.env.openErr = none) (hw : s.writeErr = none) :
    ((runLoop fr [s] t0 w).2.any Event.isOpen)
      = (s.now.day != w.filedate.day) := by
  by_cases hrot : rotationCheck w s.now
  · rw [show ((s.now.day != w.filedate.day) = true) from hrot]
    simp only [runLoop, hmsg, hrot, if_true,
      intRotate_success fr s.env s.now w hren hgz hop, hw]
    by_cases hfo : w.fileOpen <;>
      by_cases hg : (s.env.fileExists && (w.rotate_limit != 0)) = true <;>
        simp [shutdown, hfo, hg, Event.isOpen, Event.isWrite]
  · rw [show ((s.now.day != w.filedate.day) = false) from
      Bool.not_eq_true _ ▸ hrot]
    simp only [runLoop, hmsg, hrot, if_false, hw]
    by_cases hfo : w.fileOpen <;> simp [shutdown, hrot, hw, hfo, Event.isOpen]

/-- Witness for C1's amended theorem at a concrete input: a record
dequeued on 2024-01-16 with the file opened 2024-01-15 does rotate. -/
theorem C1_witness :
    ((runLoop frTag
        [{ msg := Msg.record (mkRec ⟨2024, 1, 16, 0, 0, 0⟩),
           now := ⟨2024, 1, 16, 0, 0, 0⟩, env := envOK, writeErr := none }]
        ⟨2024, 1, 16, 0, 0, 0⟩ c1Writer).2.any Event.isOpen)
      = ((⟨2024, 1, 16, 0, 0, 0⟩ : Time).day != c1Writer.filedate.day) :=
  C1_rotates_iff_day_of_month_differs frTag _ _ c1Writer
    (mkRec ⟨2024, 1, 16, 0, 0, 0⟩) rfl rfl rfl rfl rfl

/-! ## C2 — Close drains, then trailer, flush and close -/

/-- Is this message a record (as opposed to a rotation signal)? -/
def Msg.isRecord : Msg → Bool
  | Msg.record _ => true
  | Msg.rotSignal => false

/-- Drain lemma: a run over record messages that all fall on the opened
file's day of month and whose writes succeed performs exactly the record
writes in order, leaves the state unchanged, and ends with the deferred
shutdown. -/
theorem runLoop_drain (fr : String → LogRecord → String)
    (pending : List Step) (t : Time) (w : DailyFileLogWriter)
    (h : ∀ s ∈ pending, s.msg.isRecord = true ∧ s.writeErr = none ∧
      s.now.day = w.filedate.day) :
    runLoop fr pending t w =
      (w, drainWrites fr w.format pending ++ shutdown fr t w) := by
  induction pending with
  | nil => simp [runLoop, drainWrites]
  | cons s rest ih =>
    obtain ⟨hrec, hw, hday⟩ := h s (by simp)
    obtain ⟨r, hmsg⟩ : ∃ r, s.msg = Msg.record r := by
      cases hm : s.msg with
      | record r => exact ⟨r, rfl⟩
      | rotSignal => rw [hm] at hrec; exact absurd hrec (by simp [Msg.isRecord])
    have hrot : rotationCheck w s.now = false := by
      simp [rotationCheck, hday]
    have hrest := ih (fun x hx => h x (List.mem_cons_of_mem s hx))
    simp [runLoop, hmsg, hrot, hw, hrest, drainWrites]

/-- C2: calling `Close` with any list of pending record messages in the
queue (the empty list included) — all of them same-day and with succeeding
writes — first writes every pending record in order, then writes the
trailer and closes the handle, each exactly once; the `w.file.Sync()`
issued by `Close` itself is the single flush. -/
theorem C2_close_drains_then_trailer_and_close
    (fr : String → LogRecord → String) (pending : List Step)
    (endTime : Time) (w : DailyFileLogWriter)
    (hrc : w.recClosed = false) (hfo : w.fileOpen = true)
    (h : ∀ s ∈ pending, s.msg.isRecord = true ∧ s.writeErr = none ∧
      s.now.day = w.filedate.day) :
    closeThenDrain fr pending endTime w =
      Except.ok ({ w with recClosed := true },
        Event.syncFile :: (drainWrites fr w.format pending
          ++ [Event.writeFile (fr w.trailer (mkRec endTime)),
              Event.closeFile])) := by
  have hdrain := runLoop_drain fr pending endTime
    { w with recClosed := true } (by simpa using h)
  rw [hfo] at hdrain
  simp [closeThenDrain, Close, hrc, hdrain, shutdown, hfo]

/-- Witness for C2 at a concrete input: two pending records on the opened
day drain in order, then the trailer and the close follow. -/
theorem C2_witness :
    closeThenDrain frTag
      [{ msg := Msg.record (mkRec ⟨2024, 1, 15, 10, 0, 0⟩),
         now := ⟨2024, 1, 15, 10, 0, 0⟩, env := envOK, writeErr := none },
       { msg := Msg.record (mkRec ⟨2024, 1, 15, 11, 0, 0⟩),
         now := ⟨2024, 1, 15, 11, 0, 0⟩, env := envOK, writeErr := none }]
      ⟨2024, 1, 15, 12, 0, 0⟩ c1Writer =
      Except.ok ({ c1Writer with recClosed := true },
        Event.syncFile ::
          (drainWrites frTag c1Writer.format
            [{ msg := Msg.record (mkRec ⟨2024, 1, 15, 10, 0, 0⟩),
               now := ⟨2024, 1, 15, 10, 0, 0⟩, env := envOK, writeErr := none },
             { msg := Msg.record (mkRec ⟨2024, 1, 15, 11, 0, 0⟩),
               now := ⟨2024, 1, 15, 11, 0, 0⟩, env := envOK, writeErr := none }]
            ++ [Event.writeFile (frTag c1Writer.trailer
                  (mkRec ⟨2024, 1, 15, 12, 0, 0⟩)),
                Event.closeFile])) :=
  C2_close_drains_then_trailer_and_close frTag _ _ c1Writer rfl rfl
    (by decide)

/-- When `os.OpenFile` fails (rename and gzip not failing first),
`intRotate` returns the open error with the state unchanged. -/
theorem intRotate_open_fail (fr : String → LogRecord → String) (env : FSEnv)
    (now : Time) (w : DailyFileLogWriter) (e : String)
    (hren : env.renameErr = none) (hgz : env.gzipErr = none)
    (hop : env.openErr = some e) :
    intRotate fr env now w =
      (w,
       (if w.fileOpen then
          [Event.writeFile (fr w.trailer (mkRec now)), Event.closeFile]
        else [])
        ++ (if env.fileExists && (w.rotate_limit != 0) then
              [Event.rename w.filename (archiveName w.filename w.filedate),
               Event.gzip (archiveName w.filename w.filedate)]
            else []),
       some e) := by
  by_cases hg : (env.fileExists && (w.rotate_limit != 0)) = true <;>
    simp [intRotate, hren, hgz, hop, hg]

/-! ## C3 — double Close -/

/-- C3: a second `Close` on the same writer crashes.  The first `Close`
executes `close(w.rec)` and succeeds; the second executes `close(w.rec)`
on the already-closed channel, which panics in Go with "close of closed
channel" (modelled as `Except.error`).  This contradicts the claim that a
second invocation of `Close` does not panic. -/
theorem C3_double_close_panics :
    Close c1Writer
        = Except.ok ({ c1Writer with recClosed := true }, [Event.syncFile]) ∧
    Close { c1Writer with recClosed := true }
        = Except.error "close of closed channel" :=
  ⟨rfl, rfl⟩

/-! ## C4 — archive iff retention nonzero and file exists -/

/-- C4: on a successful rotation, the trace holds exactly one rename and
one gzip when the retention limit is nonzero and a file exists at the
target name, and zero of each otherwise; in every case rotation proceeds
to reopening the log file. -/
theorem C4_archive_iff_retention_and_file_exists
    (fr : String → LogRecord → String) (env : FSEnv) (now : Time)
    (w : DailyFileLogWriter)
    (hsucc : (intRotate fr env now w).2.2 = none) :
    (((intRotate fr env now w).2.1.filter Event.isRename).length
      = if env.fileExists && (w.rotate_limit != 0) then 1 else 0) ∧
    (((intRotate fr env now w).2.1.filter Event.isGzip).length
      = if env.fileExists && (w.rotate_limit != 0) then 1 else 0) ∧
    ((intRotate fr env now w).2.1.any Event.isOpen = true) := by
  cases hren : env.renameErr with
  | some e =>
    by_cases hg : (env.fileExists && (w.rotate_limit != 0)) = true
    · rw [intRotate_rename_fail fr env now w e hg hren] at hsucc
      exact absurd hsucc (by simp)
    · cases hop : env.openErr with
      | some e2 =>
        cases hgz : env.gzipErr with
        | some e3 => simp [intRotate, hg, hop, hgz, hren] at hsucc
        | none => simp [intRotate, hg, hop, hgz, hren] at hsucc
      | none =>
        cases hgz : env.gzipErr with
        | some e3 =>
          simp [intRotate, hg, hop, hgz, hren, Event.isRename, Event.isGzip,
            Event.isOpen, List.filter_append, List.any_append]
          by_cases hfo : w.fileOpen <;>
            simp [hfo, Event.isRename, Event.isGzip, Event.isOpen]
        | none =>
          simp [intRotate, hg, hop, hgz, hren, Event.isRename, Event.isGzip,
            Event.isOpen, List.filter_append, List.any_append]
          by_cases hfo : w.fileOpen <;>
            simp [hfo, Event.isRename, Event.isGzip, Event.isOpen]
  | none =>
    cases hgz : env.gzipErr with
    | some e =>
      by_cases hg : (env.fileExists && (w.rotate_limit != 0)) = true
      · rw [intRotate_gzip_fail fr env now w e hg hren hgz] at hsucc
        exact absurd hsucc (by simp)
      · cases hop : env.openErr with
        | some e2 => simp [intRotate, hg, hop, hgz, hren] at hsucc
        | none =>
          simp [intRotate, hg, hop, hgz, hren, Event.isRename, Event.isGzip,
            Event.isOpen, List.filter_append, List.any_append]
          by_cases hfo : w.fileOpen <;>
            simp [hfo, Event.isRename, Event.isGzip, Event.isOpen]
    | none =>
      cases hop : env.openErr with
      | some e =>
        rw [intRotate_open_fail fr env now w e hren hgz hop] at hsucc
        exact absurd hsucc (by simp)
      | none =>
        rw [intRotate_success fr env now w hren hgz hop]
        by_cases hg : (env.fileExists && (w.rotate_limit != 0)) = true <;>
          by_cases hfo : w.fileOpen <;>
            simp [hg, hfo, Event.isRename, Event.isGzip, Event.isOpen,
              List.filter_append, List.any_append]

/-- Witness for C4 at a concrete input: retention 3 and an existing file
give exactly one rename and one gzip, and the file is reopened. -/
theorem C4_witness :
    (((intRotate frTag envOK c1Now c1Writer).2.1.filter Event.isRename).length
      = if envOK.fileExists && (c1Writer.rotate_limit != 0) then 1 else 0) ∧
    (((intRotate frTag envOK c1Now c1Writer).2.1.filter Event.isGzip).length
      = if envOK.fileExists && (c1Writer.rotate_limit != 0) then 1 else 0) ∧
    ((intRotate frTag envOK c1Now c1Writer).2.1.any Event.isOpen = true) :=
  C4_archive_iff_retention_and_file_exists frTag envOK c1Now c1Writer rfl

/-! ## C5 — rename/gzip failure aborts rotation -/

/-- C5: when the archive guard holds and either the rename or the gzip
invocation fails, `intRotate` returns that failure, opens no new file, and
leaves every struct field unchanged (the state past the close step). -/
theorem C5_rename_or_gzip_failure_aborts
    (fr : String → LogRecord → String) (env : FSEnv) (now : Time)
    (w : DailyFileLogWriter)
    (hg : (env.fileExists && (w.rotate_limit != 0)) = true)
    (hfail : env.renameErr ≠ none ∨ env.gzipErr ≠ none) :
    (intRotate fr env now w).1 = w ∧
    (∃ e, (intRotate fr env now w).2.2 = some e) ∧
    ((intRotate fr env now w).2.1.any Event.isOpen) = false := by
  cases hren : env.renameErr with
  | some e =>
    rw [intRotate_rename_fail fr env now w e hg hren]
    by_cases hfo : w.fileOpen <;> simp [hfo, Event.isOpen]
  | none =>
    cases hgz : env.gzipErr with
    | some e =>
      rw [intRotate_gzip_fail fr env now w e hg hren hgz]
      by_cases hfo : w.fileOpen <;> simp [hfo, Event.isOpen]
    | none =>
      rcases hfail with h | h
      · exact absurd hren h
      · exact absurd hgz h

/-- A per-rotation environment where the rename fails. -/
def envRenameFail : FSEnv :=
  { fileExists := true, renameErr := some "permission denied",
    gzipErr := none, openErr := none }

/-- Witness for C5 at a concrete input: a failing rename leaves the
writer unchanged, yields an error, and opens no file. -/
theorem C5_witness :
    (intRotate frTag envRenameFail c1Now c1Writer).1 = c1Writer ∧
    (∃ e, (intRotate frTag envRenameFail c1Now c1Writer).2.2 = some e) ∧
    ((intRotate frTag envRenameFail c1Now c1Writer).2.1.any Event.isOpen)
      = false :=
  C5_rename_or_gzip_failure_aborts frTag envRenameFail c1Now c1Writer rfl
    (Or.inl (by simp [envRenameFail]))

/-! ## C6 — archive file name -/

/-- C6: whenever the rotation renames the current file (guard holds,
rename succeeds at least as far as being invoked), the rename's target is
the current filename followed by a dot and `openedDate` (`w.filedate`, the
date of the file being closed — not `now`) as 4-digit year, zero-padded
2-digit month and 2-digit day. -/
theorem C6_archive_name_uses_filedate
    (fr : String → LogRecord → String) (env : FSEnv) (now : Time)
    (w : DailyFileLogWriter)
    (hg : (env.fileExists && (w.rotate_limit != 0)) = true)
    (hren : env.renameErr = none) :
    Event.rename w.filename
        (w.filename ++ "." ++ pad0 4 w.filedate.year ++ "-"
          ++ pad0 2 w.filedate.month ++ "-" ++ pad0 2 w.filedate.day)
      ∈ (intRotate fr env now w).2.1 := by
  cases hgz : env.gzipErr with
  | some e =>
    rw [intRotate_gzip_fail fr env now w e hg hren hgz]
    by_cases hfo : w.fileOpen <;> simp [hfo, archiveName]
  | none =>
    cases hop : env.openErr with
    | some e =>
      rw [intRotate_open_fail fr env now w e hren hgz hop]
      by_cases hfo : w.fileOpen <;> simp [hfo, hg, archiveName]
    | none =>
      rw [intRotate_success fr env now w hren hgz hop]
      by_cases hfo : w.fileOpen <;> simp [hfo, hg, archiveName]

/-- Witness for C6 at a concrete input: rotating on 2024-02-15 a file
opened on 2024-01-15 renames it to `app.log.2024-01-15` — the date of the
file being closed, not the current date. -/
theorem C6_witness :
    Event.rename c1Writer.filename
        (c1Writer.filename ++ "." ++ pad0 4 c1Writer.filedate.year ++ "-"
          ++ pad0 2 c1Writer.filedate.month ++ "-"
          ++ pad0 2 c1Writer.filedate.day)
      ∈ (intRotate frTag envOK c1Now c1Writer).2.1 ∧
    (c1Writer.filename ++ "." ++ pad0 4 c1Writer.filedate.year ++ "-"
          ++ pad0 2 c1Writer.filedate.month ++ "-"
          ++ pad0 2 c1Writer.filedate.day)
      = "app.log.2024-01-15" :=
  ⟨C6_archive_name_uses_filedate frTag envOK c1Now c1Writer rfl rfl, rfl⟩

/-! ## C7 — fail-stop after a background error -/

/-- A step whose record write fails (same day, so no rotation first). -/
def c7Step : Step :=
  { msg := Msg.record (mkRec ⟨2024, 1, 15, 10, 0, 0⟩),
    now := ⟨2024, 1, 15, 10, 0, 0⟩, env := envOK,
    writeErr := some "disk full" }

/-- C7 counterexample: after a record-write error is reported on stderr,
the deferred function still appends the trailer to the file — a file write
occurs after the error report, falsifying "no write occurs after an error
report". -/
theorem C7_counterexample :
    writeAfterReport
      (runLoop frTag [c7Step] ⟨2024, 1, 15, 23, 0, 0⟩ c1Writer).2 = true :=
  rfl

/-- `intRotate` never changes the writer's filename. -/
theorem intRotate_filename (fr : String → LogRecord → String) (env : FSEnv)
    (now : Time) (w : DailyFileLogWriter) :
    (intRotate fr env now w).1.filename = w.filename := by
  by_cases hg : (env.fileExists && (w.rotate_limit != 0)) = true <;>
    cases hren : env.renameErr <;> cases hgz : env.gzipErr <;>
      cases hop : env.openErr <;> simp [intRotate, hg, hren, hgz, hop]

/-- On every error return, `intRotate` leaves the writer unchanged. -/
theorem intRotate_error_state (fr : String → LogRecord → String)
    (env : FSEnv) (now : Time) (w : DailyFileLogWriter) (e : String)
    (he : (intRotate fr env now w).2.2 = some e) :
    (intRotate fr env now w).1 = w := by
  by_cases hg : (env.fileExists && (w.rotate_limit != 0)) = true <;>
    cases hren : env.renameErr <;> cases hgz : env.gzipErr <;>
      cases hop : env.openErr <;>
        simp [intRotate, hg, hren, hgz, hop] at he ⊢

/-- The loop iteration over message `s` in state `w` hits an error: on a
rotation signal, the `intRotate` at lines 79–83 fails; on a record, either
the date-triggered `intRotate` at lines 88–93 fails, or (the rotation
succeeding or not being due) the record write at lines 96–100 fails.
This mirrors exactly the source's decision points. -/
def stepFails (fr : String → LogRecord → String) (w : DailyFileLogWriter)
    (s : Step) : Bool :=
  match s.msg with
  | Msg.rotSignal => ((intRotate fr s.env s.now w).2.2).isSome
  | Msg.record _ =>
    if rotationCheck w s.now then
      ((intRotate fr s.env s.now w).2.2).isSome || s.writeErr.isSome
    else
      s.writeErr.isSome

/-- C7 amended: for every in-loop error — a failing rotation on a rotate
signal, a failing date-triggered rotation before a record write, or a
failing record write (same-day or after a successful cross-day rotation) —
the loop reports the error on stderr tagged with the writer's filename and
processes no further record or rotation signal: the run's outcome is
independent of the rest of the queue (and of the close-time instant), and
the only events after the report are the deferred shutdown's trailer write
attempt and file close — in particular no record write and no rotation
follow the report. -/
theorem C7_failstop_report_then_only_shutdown
    (fr : String → LogRecord → String) (s : Step) (w : DailyFileLogWriter)
    (herr : stepFails fr w s = true) :
    ∃ w2 e pre,
      ∀ rest t0, runLoop fr (s :: rest) t0 w =
        (w2, pre ++ Event.stderrReport w.filename e
          :: shutdown fr s.now w2) := by
  cases hmsg : s.msg with
  | rotSignal =>
    rw [stepFails, hmsg, Option.isSome_iff_exists] at herr
    obtain ⟨e, he⟩ := herr
    have hst := intRotate_error_state fr s.env s.now w e he
    exact ⟨w, e, (intRotate fr s.env s.now w).2.1, fun rest t0 => by
      simp [runLoop, hmsg, he, hst]⟩
  | record r =>
    by_cases hrot : rotationCheck w s.now
    · cases hre : (intRotate fr s.env s.now w).2.2 with
      | some e =>
        have hst := intRotate_error_state fr s.env s.now w e hre
        exact ⟨w, e, (intRotate fr s.env s.now w).2.1, fun rest t0 => by
          simp [runLoop, hmsg, hrot, hre, hst]⟩
      | none =>
        cases hwe : s.writeErr with
        | none =>
          rw [stepFails, hmsg] at herr
          simp [hrot, hre, hwe] at herr
        | some e =>
          exact ⟨(intRotate fr s.env s.now w).1, e,
            (intRotate fr s.env s.now w).2.1, fun rest t0 => by
              simp [runLoop, hmsg, hrot, hre, hwe, intRotate_filename]⟩
    · cases hwe : s.writeErr with
      | none =>
        rw [stepFails, hmsg] at herr
        simp [hrot, hwe] at herr
      | some e =>
        exact ⟨w, e, [], fun rest t0 => by simp [runLoop, hmsg, hrot, hwe]⟩

/-- Witness for C7's amended theorem at a concrete input: the failing step
followed by any queued records, which are never processed. -/
theorem C7_witness :
    ∃ w2 e pre,
      ∀ rest t0, runLoop frTag (c7Step :: rest) t0 c1Writer =
        (w2, pre ++ Event.stderrReport c1Writer.filename e
          :: shutdown frTag c7Step.now w2) :=
  C7_failstop_report_then_only_shutdown frTag c7Step c1Writer rfl

/-! ## C8 — trailer then header around a successful rotation -/

/-- C8: on a successful rotation with a file open, the trace starts with
the trailer (rendered with a record timestamped at the rotation instant)
written to the old file immediately before its close, and ends with the
newly opened file receiving, as its first write, the header rendered with
a record timestamped at the rotation instant — which is exactly the new
`filedate` (`openedDate`); nothing between the close and the open writes
to any file. -/
theorem C8_trailer_and_header_bracket_rotation
    (fr : String → LogRecord → String) (env : FSEnv) (now : Time)
    (w : DailyFileLogWriter) (hfo : w.fileOpen = true)
    (hren : env.renameErr = none) (hgz : env.gzipErr = none)
    (hop : env.openErr = none) :
    ∃ mid,
      (intRotate fr env now w).2.1 =
        [Event.writeFile (fr w.trailer (mkRec now)), Event.closeFile]
          ++ mid
          ++ [Event.openFile w.filename,
              Event.writeFile (fr w.header (mkRec now))] ∧
      mid.all (fun ev => !ev.isWrite) = true ∧
      (intRotate fr env now w).1.filedate = now ∧
      (intRotate fr env now w).2.2 = none := by
  rw [intRotate_success fr env now w hren hgz hop]
  by_cases hg : (env.fileExists && (w.rotate_limit != 0)) = true
  · exact ⟨[Event.rename w.filename (archiveName w.filename w.filedate),
            Event.gzip (archiveName w.filename w.filedate)],
      by simp [hfo, hg, Event.isWrite]⟩
  · exact ⟨[], by simp [hfo, hg, Event.isWrite]⟩

/-- Witness for C8 at a concrete input. -/
theorem C8_witness :
    ∃ mid,
      (intRotate frTag envOK c1Now c1Writer).2.1 =
        [Event.writeFile (frTag c1Writer.trailer (mkRec c1Now)),
         Event.closeFile]
          ++ mid
          ++ [Event.openFile c1Writer.filename,
              Event.writeFile (frTag c1Writer.header (mkRec c1Now))] ∧
      mid.all (fun ev => !ev.isWrite) = true ∧
      (intRotate frTag envOK c1Now c1Writer).1.filedate = c1Now ∧
      (intRotate frTag envOK c1Now c1Writer).2.2 = none :=
  C8_trailer_and_header_bracket_rotation frTag envOK c1Now c1Writer
    rfl rfl rfl rfl

/-! ## C9 — construction failure yields no writer -/

/-- C9: when the first rotation/open performed at construction fails, the
constructor's `panic(err)` fires — construction never yields a writer
(modelled as `Except.error`), so no producer can enqueue on it. -/
theorem C9_construction_failure_yields_no_writer
    (fr : String → LogRecord → String) (env : FSEnv) (now : Time)
    (fname : String) (rotate_limit : Nat) (e : String)
    (hfail : (intRotate fr env now
        (initialWriter fname rotate_limit now)).2.2 = some e) :
    NewDailyFileLogWriter fr env now fname rotate_limit
      = Except.error e := by
  simp [NewDailyFileLogWriter, hfail]

/-- An environment where the initial `os.OpenFile` fails. -/
def envOpenFail : FSEnv :=
  { fileExists := false, renameErr := none, gzipErr := none,
    openErr := some "no such directory" }

/-- Witness for C9 at a concrete input. -/
theorem C9_witness :
    NewDailyFileLogWriter frTag envOpenFail ⟨2024, 1, 15, 8, 0, 0⟩
        "nodir/app.log" 3 = Except.error "no such directory" :=
  C9_construction_failure_yields_no_writer frTag envOpenFail
    ⟨2024, 1, 15, 8, 0, 0⟩ "nodir/app.log" 3 "no such directory" rfl

/-! ## C10 — SetHeadFoot's side effect -/

/-- C10: with a file open, `SetHeadFoot` stores the new header and trailer
and immediately appends the *new* header rendered with the current time;
every other field (`recClosed`, `filename`, `filedate`, `fileOpen`,
`format`, `rotate_limit`) is unchanged, as the result's state is exactly
the input with only `header` and `trailer` replaced. -/
theorem C10_SetHeadFoot_appends_new_header
    (fr : String → LogRecord → String) (now : Time) (head foot : String)
    (w : DailyFileLogWriter) (hfo : w.fileOpen = true) :
    SetHeadFoot fr now head foot w =
      ({ w with header := head, trailer := foot },
       [Event.writeFile (fr head (mkRec now))]) := by
  simp [SetHeadFoot, hfo]

/-- Witness for C10 at a concrete input. -/
theorem C10_witness :
    SetHeadFoot frTag ⟨2024, 1, 15, 9, 30, 0⟩ "<log>" "</log>" c1Writer =
      ({ c1Writer with header := "<log>", trailer := "</log>" },
       [Event.writeFile (frTag "<log>" (mkRec ⟨2024, 1, 15, 9, 30, 0⟩))]) :=
  C10_SetHeadFoot_appends_new_header frTag ⟨2024, 1, 15, 9, 30, 0⟩
    "<log>" "</log>" c1Writer rfl
